import Mathlib

/-!
# Verification of the drop-point distance bucketing app

Shallow embedding of `src/app.py`: a pipeline that reads a table of drop
points, coerces the coordinate columns to numeric, drops rows that fail
coercion, attaches a geodesic distance to a fixed reference point and a
distance-bucket label to every surviving row, and summarises the bucket
column with pandas `value_counts`.

Numbers are modelled as rationals.  Python/pandas value states that matter
to the pipeline are modelled explicitly: a numeric cell, a text cell, the
float `NaN` (produced by failed `to_numeric` coercion and by pandas
upcasting `None` in a mixed float column) and the Python object `None`
(returned by `calculate_distance` on failure).  The external geodesy
routine (`geopy.distance.geodesic`) is not part of the repository, so its
validity checking and exception behaviour are modelled from the spec
(§4.1) and the underlying surface-distance formula on valid coordinates is
abstracted as a parameter `gd`.
-/

namespace DistanceBucket

/-- A pandas cell value: a (finite) number, a text value, the float `NaN`,
or the Python object `None`. -/
inductive Cell where
  | num (q : ℚ)
  | str (s : String)
  | nan
  | pynone
deriving DecidableEq, Repr

/-- A Python value flowing through `categorize_distance`: a finite float,
the float `NaN`, or `None`. -/
inductive PyVal where
  | pnum (q : ℚ)
  | pnan
  | pnone
deriving DecidableEq, Repr

/-- An argument handed to the geodesic routine: a finite float, `NaN`,
infinity, or a non-numeric object (carrying its text). -/
inductive PyNum where
  | fin (q : ℚ)
  | nan
  | inf
  | notNum (s : String)
deriving DecidableEq, Repr

/-- The Python exception classes relevant to `calculate_distance`. -/
inductive PyError where
  | valueError
  | typeError
  | otherError
deriving DecidableEq, Repr

instance {ε α : Type} [DecidableEq ε] [DecidableEq α] : DecidableEq (Except ε α) := fun x y =>
  match x, y with
  | .ok a, .ok b =>
    if h : a = b then .isTrue (congrArg Except.ok h)
    else .isFalse fun hh => h (Except.ok.inj hh)
  | .error e, .error f =>
    if h : e = f then .isTrue (congrArg Except.error h)
    else .isFalse fun hh => h (Except.error.inj hh)
  | .ok _, .error _ => .isFalse fun hh => Except.noConfusion hh
  | .error _, .ok _ => .isFalse fun hh => Except.noConfusion hh

/-! ## Numeric coercion (pandas `to_numeric` with `errors="coerce"`) -/

def digitVal (ch : Char) : Option ℕ :=
  if ch.isDigit then some (ch.toNat - 48) else none

def parseNatDigits (cs : List Char) : Option ℕ :=
  if cs.isEmpty then none
  else cs.foldl (fun acc ch => acc.bind fun n => (digitVal ch).map fun d => n * 10 + d) (some 0)

def splitDot : List Char → List Char × Option (List Char)
  | [] => ([], none)
  | c :: rest =>
    if c = '.' then ([], some rest)
    else
      let p := splitDot rest
      (c :: p.1, p.2)

def isSpaceChar (ch : Char) : Bool :=
  ch = ' ' || ch = '\t' || ch = '\n' || ch = '\r'

def trimChars (cs : List Char) : List Char :=
  ((cs.dropWhile isSpaceChar).reverse.dropWhile isSpaceChar).reverse

/-- Modelled from the spec: the numeric parsing done by pandas
`pd.to_numeric` on a text cell (library code, not part of this
repository).  Accepts an optionally signed plain decimal literal,
with surrounding whitespace; anything else fails to coerce. -/
def strToNum (s : String) : Option ℚ :=
  let cs0 := trimChars s.toList
  let sc : Bool × List Char :=
    match cs0 with
    | '-' :: r => (true, r)
    | '+' :: r => (false, r)
    | _ => (false, cs0)
  let p := splitDot sc.2
  match p.2 with
  | none => (parseNatDigits p.1).map fun n => if sc.1 then -(n : ℚ) else (n : ℚ)
  | some fp =>
    if p.1.isEmpty && fp.isEmpty then none
    else
      match (if p.1.isEmpty then some 0 else parseNatDigits p.1),
            (if fp.isEmpty then some 0 else parseNatDigits fp) with
      | some n, some f =>
        let q : ℚ := (n : ℚ) + (f : ℚ) / ((10 : ℚ) ^ fp.length)
        some (if sc.1 then -q else q)
      | _, _ => none

/-- Coercion `pd.to_numeric(_, errors="coerce")` on one cell: numbers pass through,
text is parsed, `NaN`/`None` (missing) fail. -/
def toNumeric : Cell → Option ℚ
  | .num q => some q
  | .str s => strToNum s
  | .nan => none
  | .pynone => none

/-- The coerced cell: the numeric value, or `NaN` when coercion fails. -/
def coerceCell (c : Cell) : Cell :=
  match toNumeric c with
  | some q => .num q
  | none => .nan

/-! ## Rows and data frames -/

/-- A row of a data frame: an association list from column name to cell. -/
abbrev Row := List (String × Cell)

/-- Read a cell; a column missing from the row reads as `NaN` (pandas
fills absent values with `NaN`). -/
def getCell : Row → String → Cell
  | [], _ => .nan
  | (c', v) :: r, c => if c' = c then v else getCell r c

/-- Write a cell, replacing the value of an existing column in place or
appending a new column at the end (pandas column assignment). -/
def setCell : Row → String → Cell → Row
  | [], c, v => [(c, v)]
  | (c', v') :: r, c, v => if c' = c then (c, v) :: r else (c', v') :: setCell r c v

structure Df where
  cols : List String
  rows : List Row
deriving DecidableEq, Repr

def hasCol (df : Df) (c : String) : Bool := df.cols.contains c

def addCol (cols : List String) (c : String) : List String :=
  if c ∈ cols then cols else cols ++ [c]

def colVals (df : Df) (c : String) : List Cell := df.rows.map fun r => getCell r c

/-- Assignment `df[c] = pd.to_numeric(df[c], errors="coerce")`: replace column `c` of
every row by its coerced value. -/
def coerceCol (df : Df) (c : String) : Df :=
  ⟨addCol df.cols c, df.rows.map fun r => setCell r c (coerceCell (getCell r c))⟩

/-- pandas missing-value test: `NaN` and `None` are NA. -/
def isNA : Cell → Bool
  | .nan => true
  | .pynone => true
  | _ => false

/-- Dropping rows `df.dropna(subset=...)`: keep the rows with no NA in the subset. -/
def dropnaRows (rows : List Row) (subset : List String) : List Row :=
  rows.filter fun r => subset.all fun c => !(isNA (getCell r c))

/-- Assignment `df[c] = series`: assign a column from a list of values (row count and
value count agree at every use site). -/
def setColVals (df : Df) (c : String) (vs : List Cell) : Df :=
  ⟨addCol df.cols c, List.zipWith (fun r v => setCell r c v) df.rows vs⟩

/-! ## `calculate_distance` (src/app.py lines 8-27) -/

def validLat (q : ℚ) : Prop := -90 ≤ q ∧ q ≤ 90

def validLon (q : ℚ) : Prop := -180 ≤ q ∧ q ≤ 180

instance (q : ℚ) : Decidable (validLat q) :=
  inferInstanceAs (Decidable (-90 ≤ q ∧ q ≤ 90))

instance (q : ℚ) : Decidable (validLon q) :=
  inferInstanceAs (Decidable (-180 ≤ q ∧ q ≤ 180))

def isNotNum : PyNum → Bool
  | .notNum _ => true
  | _ => false

/-- Modelled from the spec: `geopy.distance.geodesic(...).km`, the external
geodesy library routine (its code is not part of this repository).  Per
§4.1 it fails — raising `TypeError` for an argument that is not a number
and `ValueError` for a non-finite or out-of-range coordinate — and on four
valid coordinates it returns the great-circle distance, abstracted here as
the parameter `gd`. -/
def geodesic (gd : ℚ → ℚ → ℚ → ℚ → ℚ) : PyNum → PyNum → PyNum → PyNum → Except PyError ℚ
  | .fin la1, .fin lo1, .fin la2, .fin lo2 =>
    if validLat la1 ∧ validLon lo1 ∧ validLat la2 ∧ validLon lo2 then
      .ok (gd la1 lo1 la2 lo2)
    else .error .valueError
  | a, b, c, d =>
    if isNotNum a || isNotNum b || isNotNum c || isNotNum d then .error .typeError
    else .error .valueError

/-- Function `calculate_distance` (lines 8-27): wraps the geodesic call in
`try/except (ValueError, TypeError)`, returning `None` on those two
exception classes; any other exception would escape. -/
def calculate_distance (gd : ℚ → ℚ → ℚ → ℚ → ℚ) (lat1 lon1 lat2 lon2 : PyNum) :
    Except PyError (Option ℚ) :=
  match geodesic gd lat1 lon1 lat2 lon2 with
  | .ok km => .ok (some km)
  | .error .valueError => .ok none
  | .error .typeError => .ok none
  | .error e => .error e

/-- The value `calculate_distance` returns when no exception escapes. -/
def calcVal (gd : ℚ → ℚ → ℚ → ℚ → ℚ) (lat1 lon1 lat2 lon2 : PyNum) : Option ℚ :=
  match geodesic gd lat1 lon1 lat2 lon2 with
  | .ok km => some km
  | .error _ => none

/-! ## `categorize_distance` (src/app.py lines 29-52)

Python comparison semantics on the values reaching this function: a
comparison with `NaN` is `False`, so `NaN` falls through every branch to
the final `else`. -/

def vlt (v : PyVal) (b : ℚ) : Bool :=
  match v with
  | .pnum d => decide (d < b)
  | _ => false

def vge (v : PyVal) (b : ℚ) : Bool :=
  match v with
  | .pnum d => decide (b ≤ d)
  | _ => false

def categorize_distance (v : PyVal) : String :=
  if v = .pnone then "Invalid Coordinates"
  else if vlt v 1 then "< 1 km"
  else if vge v 1 && vlt v 2 then "1 - 2 km"
  else if vge v 2 && vlt v 3 then "2 - 3 km"
  else if vge v 3 && vlt v 4 then "3 - 4 km"
  else if vge v 4 && vlt v 5 then "4 - 5 km"
  else ">= 5 km"

/-! ## `process_drop_points` (src/app.py lines 54-94) -/

def latColumn : String := "drop point lat"
def lonColumn : String := "drop long"
def distColumn : String := "Distance (km)"
def bucketColumn : String := "Distance Bucket"

def schemaErrorMsg : String :=
  "Error: drop point lat and/or drop long columns not found. Check column names."

/-- How a post-coercion coordinate cell arrives at the geodesic routine:
numbers as floats, `NaN` as the float `NaN`, text and `None` as
non-numeric objects. -/
def cellNum : Cell → PyNum
  | .num q => .fin q
  | .nan => .nan
  | .pynone => .notNum "None"
  | .str s => .notNum s

/-- Reading a distance-column cell back as the Python value seen by the
bucket `apply` (only `num`/`nan`/`pynone` occur in that column). -/
def cellToPyVal : Cell → PyVal
  | .num q => .pnum q
  | .nan => .pnan
  | _ => .pnone

/-- Storing a distance value into a cell. -/
def distCell : PyVal → Cell
  | .pnum q => .num q
  | .pnan => .nan
  | .pnone => .pynone

def pyValOf (mixed : Bool) : Option ℚ → PyVal
  | some q => .pnum q
  | none => if mixed then .pnan else .pnone

def mixedOf (ds : List (Option ℚ)) : Bool :=
  ds.any Option.isSome && ds.any Option.isNone

/-- pandas Series construction from the per-row results of
`DataFrame.apply(..., axis=1)`: when the results mix floats and `None`,
the Series dtype is float64 and every `None` upcasts to `NaN`; otherwise
(all floats, or all `None` giving an object column) values are kept. -/
def seriesOfResults (ds : List (Option ℚ)) : List PyVal :=
  ds.map (pyValOf (mixedOf ds))

/-- Row application `df.apply(..., axis=1)`: evaluate the function row by row, propagating
the first uncaught exception. -/
def seriesApply (f : Row → Except PyError (Option ℚ)) :
    List Row → Except PyError (List (Option ℚ))
  | [] => .ok []
  | r :: rs =>
    match f r with
    | .error e => .error e
    | .ok v =>
      match seriesApply f rs with
      | .error e => .error e
      | .ok vs => .ok (v :: vs)

/-- The observable outcome of a `process_drop_points` call: the `st.error`
messages emitted, the returned data frame (`None` on schema failure), and
the final state of the data-frame object the caller passed in (the
function mutates its argument in place at lines 76-77). -/
structure ProcState where
  errors : List String
  result : Option Df
  arg : Df
deriving DecidableEq, Repr

/-- The per-row lambda of line 91. -/
def rowCalc (gd : ℚ → ℚ → ℚ → ℚ → ℚ) (rla rlo : ℚ) (r : Row) :
    Except PyError (Option ℚ) :=
  calculate_distance gd (.fin rla) (.fin rlo)
    (cellNum (getCell r latColumn)) (cellNum (getCell r lonColumn))

/-- Function `process_drop_points` (lines 54-94): column guard, in-place numeric
coercion of the two coordinate columns, `dropna`, per-row distance, bucket
column, and the three observable outcomes packaged as `ProcState`. -/
def process_drop_points (gd : ℚ → ℚ → ℚ → ℚ → ℚ) (df : Df) (rla rlo : ℚ) :
    Except PyError ProcState :=
  if hasCol df latColumn = false || hasCol df lonColumn = false then
    .ok ⟨[schemaErrorMsg], none, df⟩
  else
    let dfc := coerceCol (coerceCol df latColumn) lonColumn
    let df2 : Df := ⟨dfc.cols, dropnaRows dfc.rows [latColumn, lonColumn]⟩
    match seriesApply (rowCalc gd rla rlo) df2.rows with
    | .error e => .error e
    | .ok ds =>
      let ser := seriesOfResults ds
      let df3 := setColVals df2 distColumn (ser.map distCell)
      let df4 := setColVals df3 bucketColumn
        ((colVals df3 distColumn).map fun c => Cell.str (categorize_distance (cellToPyVal c)))
      .ok ⟨[], some df4, dfc⟩

/-! ## The caller-side summary (src/app.py line 206) -/

def insertByCount (p : String × ℕ) : List (String × ℕ) → List (String × ℕ)
  | [] => [p]
  | q :: qs => if p.2 ≤ q.2 then q :: insertByCount p qs else p :: q :: qs

def sortByCountDesc (l : List (String × ℕ)) : List (String × ℕ) :=
  l.foldr insertByCount []

/-- pandas `Series.value_counts`: one entry per distinct observed value
with its number of occurrences, sorted by descending count (the order
among equal counts is not part of any claim); values that never occur are
absent. -/
def value_counts (xs : List String) : List (String × ℕ) :=
  sortByCountDesc (xs.dedup.map fun s => (s, xs.count s))

/-- Line 206: `processed_df['Distance Bucket'].value_counts()`. -/
def bucketSummary (df : Df) : List (String × ℕ) :=
  value_counts (df.rows.map fun r =>
    match getCell r bucketColumn with
    | .str s => s
    | _ => "")

/-- The six distance labels of the bucketizer, in boundary order. -/
def distanceLabels : List String :=
  ["< 1 km", "1 - 2 km", "2 - 3 km", "3 - 4 km", "4 - 5 km", ">= 5 km"]

/-! ## Closed-form description of a successful `process_drop_points` run -/

/-- Coercion of one coordinate column within one row. -/
def coerceRowAt (c : String) (r : Row) : Row :=
  setCell r c (coerceCell (getCell r c))

/-- The coercion both column assignments (lines 76-77) perform on a row. -/
def coerceRowFn (r : Row) : Row :=
  coerceRowAt lonColumn (coerceRowAt latColumn r)

/-- The state of the caller's data-frame object after the in-place column
assignments of lines 76-77. -/
def coercedDf (df : Df) : Df :=
  coerceCol (coerceCol df latColumn) lonColumn

/-- The `dropna` predicate over the two coordinate columns. -/
def keepRow (r : Row) : Bool :=
  !(isNA (getCell r latColumn)) && !(isNA (getCell r lonColumn))

/-- Both coordinate cells of the original row coerce to numbers. -/
def bothCoerceB (r : Row) : Bool :=
  (toNumeric (getCell r latColumn)).isSome && (toNumeric (getCell r lonColumn)).isSome

/-- The rows surviving normalization, in original order, with their
coordinate columns coerced. -/
def survivors (df : Df) : List Row :=
  (df.rows.filter bothCoerceB).map coerceRowFn

/-- The distance `calculate_distance` yields for one (coerced) row. -/
def distOf (gd : ℚ → ℚ → ℚ → ℚ → ℚ) (rla rlo : ℚ) (r : Row) : Option ℚ :=
  calcVal gd (.fin rla) (.fin rlo)
    (cellNum (getCell r latColumn)) (cellNum (getCell r lonColumn))

/-- Whether the per-row results mix successes and failures (which makes
pandas upcast the `None` failures to `NaN`). -/
def mixedFlag (gd : ℚ → ℚ → ℚ → ℚ → ℚ) (df : Df) (rla rlo : ℚ) : Bool :=
  mixedOf ((survivors df).map (distOf gd rla rlo))

/-- One fully processed output row. -/
def processedRow (gd : ℚ → ℚ → ℚ → ℚ → ℚ) (rla rlo : ℚ) (m : Bool) (r : Row) : Row :=
  let v := pyValOf m (distOf gd rla rlo (coerceRowFn r))
  setCell (setCell (coerceRowFn r) distColumn (distCell v)) bucketColumn
    (.str (categorize_distance v))

/-- The returned data frame of a successful run. -/
def outDf (gd : ℚ → ℚ → ℚ → ℚ → ℚ) (df : Df) (rla rlo : ℚ) : Df :=
  ⟨addCol (addCol (addCol (addCol df.cols latColumn) lonColumn) distColumn) bucketColumn,
   (df.rows.filter bothCoerceB).map (processedRow gd rla rlo (mixedFlag gd df rla rlo))⟩

/-! ## Cell and row lemmas -/

lemma getCell_setCell_same (r : Row) (c : String) (v : Cell) :
    getCell (setCell r c v) c = v := by
  induction r with
  | nil => simp [setCell, getCell]
  | cons p r ih =>
    obtain ⟨a, b⟩ := p
    by_cases h : a = c
    · simp [setCell, h, getCell]
    · simp [setCell, h, getCell, ih]

lemma getCell_setCell_ne (r : Row) (c c' : String) (v : Cell) (h : c ≠ c') :
    getCell (setCell r c v) c' = getCell r c' := by
  induction r with
  | nil => simp [setCell, getCell, h]
  | cons p r ih =>
    obtain ⟨a, b⟩ := p
    by_cases hac : a = c
    · subst hac
      simp [setCell, getCell, h]
    · simp only [setCell, if_neg hac, getCell]
      by_cases hac' : a = c'
      · simp [hac']
      · simp [hac', ih]

lemma cellToPyVal_distCell (v : PyVal) : cellToPyVal (distCell v) = v := by
  cases v <;> rfl

lemma isNA_coerceCell (c : Cell) : isNA (coerceCell c) = !(toNumeric c).isSome := by
  cases h : toNumeric c <;> simp [coerceCell, h, isNA]

lemma getCell_coerceRowFn_lat (r : Row) :
    getCell (coerceRowFn r) latColumn = coerceCell (getCell r latColumn) := by
  unfold coerceRowFn coerceRowAt
  rw [getCell_setCell_ne _ _ _ _ (by decide), getCell_setCell_same]

lemma getCell_coerceRowFn_lon (r : Row) :
    getCell (coerceRowFn r) lonColumn = coerceCell (getCell r lonColumn) := by
  unfold coerceRowFn coerceRowAt
  rw [getCell_setCell_same, getCell_setCell_ne _ _ _ _ (by decide)]

lemma getCell_coerceRowFn_ne (r : Row) (c : String) (h1 : c ≠ latColumn)
    (h2 : c ≠ lonColumn) : getCell (coerceRowFn r) c = getCell r c := by
  unfold coerceRowFn coerceRowAt
  rw [getCell_setCell_ne _ _ _ _ (Ne.symm h2), getCell_setCell_ne _ _ _ _ (Ne.symm h1)]

lemma keep_coerce (r : Row) : keepRow (coerceRowFn r) = bothCoerceB r := by
  unfold keepRow bothCoerceB
  rw [getCell_coerceRowFn_lat, getCell_coerceRowFn_lon, isNA_coerceCell, isNA_coerceCell]
  cases (toNumeric (getCell r latColumn)).isSome <;>
    cases (toNumeric (getCell r lonColumn)).isSome <;> rfl

/-! ## Exception behaviour of the geodesic wrapper -/

lemma geodesic_ne_other (gd : ℚ → ℚ → ℚ → ℚ → ℚ) (a b c d : PyNum) :
    geodesic gd a b c d ≠ .error .otherError := by
  cases a <;> cases b <;> cases c <;> cases d <;>
    simp only [geodesic] <;> split_ifs <;> simp

lemma calculate_distance_ok (gd : ℚ → ℚ → ℚ → ℚ → ℚ) (a b c d : PyNum) :
    calculate_distance gd a b c d = .ok (calcVal gd a b c d) := by
  unfold calculate_distance calcVal
  cases hg : geodesic gd a b c d with
  | ok km => rfl
  | error e =>
    cases e with
    | valueError => rfl
    | typeError => rfl
    | otherError => exact absurd hg (geodesic_ne_other gd a b c d)

lemma rowCalc_ok (gd : ℚ → ℚ → ℚ → ℚ → ℚ) (rla rlo : ℚ) (r : Row) :
    rowCalc gd rla rlo r = .ok (distOf gd rla rlo r) :=
  calculate_distance_ok gd _ _ _ _

lemma seriesApply_ok (f : Row → Except PyError (Option ℚ)) (g : Row → Option ℚ)
    (h : ∀ r, f r = .ok (g r)) (l : List Row) :
    seriesApply f l = .ok (l.map g) := by
  induction l with
  | nil => rfl
  | cons r rs ih => simp [seriesApply, h r, ih]

/-! ## zipWith helpers -/

lemma zipWith_map_same {α β γ δ : Type} (f : α → β) (g : α → γ) (h : β → γ → δ)
    (l : List α) :
    List.zipWith h (l.map f) (l.map g) = l.map fun a => h (f a) (g a) := by
  rw [List.zipWith_map_left, List.zipWith_map_right, List.zipWith_same]

lemma zipWith_map_right_same {α γ δ : Type} (g : α → γ) (h : α → γ → δ) (l : List α) :
    List.zipWith h l (l.map g) = l.map fun a => h a (g a) := by
  rw [List.zipWith_map_right, List.zipWith_same]

/-! ## Main characterization of `process_drop_points` -/

lemma dropnaRows_latlon (rows : List Row) :
    dropnaRows rows [latColumn, lonColumn] = rows.filter keepRow := by
  unfold dropnaRows
  congr 1
  funext r
  simp [keepRow, List.all_cons, List.all_nil, Bool.and_true]

lemma coercedDf_rows (df : Df) : (coercedDf df).rows = df.rows.map coerceRowFn := by
  simp only [coercedDf, coerceCol, List.map_map]
  rfl

lemma survivors_eq (df : Df) :
    dropnaRows (coercedDf df).rows [latColumn, lonColumn] = survivors df := by
  have hfn : (keepRow ∘ coerceRowFn) = bothCoerceB := funext fun r => keep_coerce r
  rw [coercedDf_rows, dropnaRows_latlon, List.filter_map, hfn, survivors]

theorem process_spec (gd : ℚ → ℚ → ℚ → ℚ → ℚ) (df : Df) (rla rlo : ℚ)
    (h1 : hasCol df latColumn = true) (h2 : hasCol df lonColumn = true) :
    process_drop_points gd df rla rlo =
      .ok ⟨[], some (outDf gd df rla rlo), coercedDf df⟩ := by
  have hdrop : dropnaRows (coerceCol (coerceCol df latColumn) lonColumn).rows
      [latColumn, lonColumn] = survivors df := survivors_eq df
  have happ : seriesApply (rowCalc gd rla rlo) (survivors df) =
      .ok ((survivors df).map (distOf gd rla rlo)) :=
    seriesApply_ok _ _ (rowCalc_ok gd rla rlo) _
  set m := mixedFlag gd df rla rlo with hm
  have hser : seriesOfResults ((survivors df).map (distOf gd rla rlo)) =
      (survivors df).map (fun r => pyValOf m (distOf gd rla rlo r)) := by
    unfold seriesOfResults
    rw [List.map_map]
    rfl
  unfold process_drop_points
  simp only [h1, h2, Bool.or_self, decide_eq_true_eq]
  rw [if_neg (by simp)]
  simp only [hdrop, happ, hser]
  congr 1
  refine congrArg (fun x => ProcState.mk [] (some x) (coercedDf df)) ?_
  unfold setColVals colVals
  refine congrArg (fun rs => Df.mk _ rs) ?_
  dsimp only
  simp only [List.map_map, zipWith_map_right_same, Function.comp]
  unfold survivors
  simp only [List.map_map, zipWith_map_same]
  refine List.map_congr_left fun r _ => ?_
  simp only [Function.comp, getCell_setCell_same, cellToPyVal_distCell, processedRow]

/-! ## Derived facts about processed rows -/

lemma getCell_processedRow_dist (gd : ℚ → ℚ → ℚ → ℚ → ℚ) (rla rlo : ℚ) (m : Bool)
    (r : Row) :
    getCell (processedRow gd rla rlo m r) distColumn =
      distCell (pyValOf m (distOf gd rla rlo (coerceRowFn r))) := by
  unfold processedRow
  rw [getCell_setCell_ne _ _ _ _ (by decide), getCell_setCell_same]

lemma getCell_processedRow_bucket (gd : ℚ → ℚ → ℚ → ℚ → ℚ) (rla rlo : ℚ) (m : Bool)
    (r : Row) :
    getCell (processedRow gd rla rlo m r) bucketColumn =
      .str (categorize_distance (pyValOf m (distOf gd rla rlo (coerceRowFn r)))) := by
  unfold processedRow
  rw [getCell_setCell_same]

lemma getCell_processedRow_lat (gd : ℚ → ℚ → ℚ → ℚ → ℚ) (rla rlo : ℚ) (m : Bool)
    (r : Row) :
    getCell (processedRow gd rla rlo m r) latColumn =
      coerceCell (getCell r latColumn) := by
  unfold processedRow
  rw [getCell_setCell_ne _ _ _ _ (by decide), getCell_setCell_ne _ _ _ _ (by decide),
    getCell_coerceRowFn_lat]

lemma getCell_processedRow_lon (gd : ℚ → ℚ → ℚ → ℚ → ℚ) (rla rlo : ℚ) (m : Bool)
    (r : Row) :
    getCell (processedRow gd rla rlo m r) lonColumn =
      coerceCell (getCell r lonColumn) := by
  unfold processedRow
  rw [getCell_setCell_ne _ _ _ _ (by decide), getCell_setCell_ne _ _ _ _ (by decide),
    getCell_coerceRowFn_lon]

lemma getCell_processedRow_other (gd : ℚ → ℚ → ℚ → ℚ → ℚ) (rla rlo : ℚ) (m : Bool)
    (r : Row) (c : String) (hla : c ≠ latColumn) (hlo : c ≠ lonColumn)
    (hd : c ≠ distColumn) (hb : c ≠ bucketColumn) :
    getCell (processedRow gd rla rlo m r) c = getCell r c := by
  unfold processedRow
  rw [getCell_setCell_ne _ _ _ _ (Ne.symm hb), getCell_setCell_ne _ _ _ _ (Ne.symm hd),
    getCell_coerceRowFn_ne _ _ hla hlo]

lemma calcVal_fin (gd : ℚ → ℚ → ℚ → ℚ → ℚ) (la lo la2 lo2 : ℚ) :
    calcVal gd (.fin la) (.fin lo) (.fin la2) (.fin lo2) =
      if validLat la ∧ validLon lo ∧ validLat la2 ∧ validLon lo2
      then some (gd la lo la2 lo2) else none := by
  unfold calcVal
  have hg : geodesic gd (.fin la) (.fin lo) (.fin la2) (.fin lo2) =
      if validLat la ∧ validLon lo ∧ validLat la2 ∧ validLon lo2 then
        .ok (gd la lo la2 lo2) else .error .valueError := rfl
  rw [hg]
  split_ifs <;> rfl

lemma distOf_coerced (gd : ℚ → ℚ → ℚ → ℚ → ℚ) (rla rlo : ℚ) (r : Row) (la lo : ℚ)
    (hla : toNumeric (getCell r latColumn) = some la)
    (hlo : toNumeric (getCell r lonColumn) = some lo) :
    distOf gd rla rlo (coerceRowFn r) =
      if validLat rla ∧ validLon rlo ∧ validLat la ∧ validLon lo
      then some (gd rla rlo la lo) else none := by
  unfold distOf
  rw [getCell_coerceRowFn_lat, getCell_coerceRowFn_lon]
  unfold coerceCell
  rw [hla, hlo]
  exact calcVal_fin gd rla rlo la lo

lemma bothCoerceB_iff (r : Row) :
    bothCoerceB r = true ↔
      (∃ la, toNumeric (getCell r latColumn) = some la) ∧
      (∃ lo, toNumeric (getCell r lonColumn) = some lo) := by
  unfold bothCoerceB
  rw [Bool.and_eq_true, Option.isSome_iff_exists, Option.isSome_iff_exists]

lemma hasCol_iff (df : Df) (c : String) : hasCol df c = true ↔ c ∈ df.cols := by
  simp [hasCol]

lemma addCol_of_mem {cols : List String} {c : String} (h : c ∈ cols) :
    addCol cols c = cols := by
  simp [addCol, h]

lemma addCol_of_not_mem {cols : List String} {c : String} (h : c ∉ cols) :
    addCol cols c = cols ++ [c] := by
  simp [addCol, h]

/-! ## The bucket boundary lemmas -/

lemma cat_pnone : categorize_distance .pnone = "Invalid Coordinates" := rfl

lemma cat_lt_one {d : ℚ} (h : d < 1) : categorize_distance (.pnum d) = "< 1 km" := by
  unfold categorize_distance
  rw [if_neg (by simp), if_pos (by simp [vlt, h])]

lemma cat_one_two {d : ℚ} (h1 : 1 ≤ d) (h2 : d < 2) :
    categorize_distance (.pnum d) = "1 - 2 km" := by
  unfold categorize_distance
  rw [if_neg (by simp), if_neg (by simp [vlt]; linarith),
    if_pos (by simp [vlt, vge]; exact ⟨h1, h2⟩)]

lemma cat_two_three {d : ℚ} (h1 : 2 ≤ d) (h2 : d < 3) :
    categorize_distance (.pnum d) = "2 - 3 km" := by
  unfold categorize_distance
  rw [if_neg (by simp), if_neg (by simp [vlt]; linarith),
    if_neg (by simp [vlt, vge]; intro _; linarith),
    if_pos (by simp [vlt, vge]; exact ⟨h1, h2⟩)]

lemma cat_three_four {d : ℚ} (h1 : 3 ≤ d) (h2 : d < 4) :
    categorize_distance (.pnum d) = "3 - 4 km" := by
  unfold categorize_distance
  rw [if_neg (by simp), if_neg (by simp [vlt]; linarith),
    if_neg (by simp [vlt, vge]; intro _; linarith),
    if_neg (by simp [vlt, vge]; intro _; linarith),
    if_pos (by simp [vlt, vge]; exact ⟨h1, h2⟩)]

lemma cat_four_five {d : ℚ} (h1 : 4 ≤ d) (h2 : d < 5) :
    categorize_distance (.pnum d) = "4 - 5 km" := by
  unfold categorize_distance
  rw [if_neg (by simp), if_neg (by simp [vlt]; linarith),
    if_neg (by simp [vlt, vge]; intro _; linarith),
    if_neg (by simp [vlt, vge]; intro _; linarith),
    if_neg (by simp [vlt, vge]; intro _; linarith),
    if_pos (by simp [vlt, vge]; exact ⟨h1, h2⟩)]

lemma cat_ge_five {d : ℚ} (h : 5 ≤ d) :
    categorize_distance (.pnum d) = ">= 5 km" := by
  unfold categorize_distance
  rw [if_neg (by simp), if_neg (by simp [vlt]; linarith),
    if_neg (by simp [vlt, vge]; intro _; linarith),
    if_neg (by simp [vlt, vge]; intro _; linarith),
    if_neg (by simp [vlt, vge]; intro _; linarith),
    if_neg (by simp [vlt, vge]; intro _; linarith)]

/-! ## Validity of geodesic arguments -/

/-- All four arguments are finite numbers within coordinate range. -/
def argsValid : PyNum → PyNum → PyNum → PyNum → Bool
  | .fin la, .fin lo, .fin la2, .fin lo2 =>
    decide (validLat la ∧ validLon lo ∧ validLat la2 ∧ validLon lo2)
  | _, _, _, _ => false

lemma calcVal_invalid (gd : ℚ → ℚ → ℚ → ℚ → ℚ) (a b c d : PyNum)
    (h : argsValid a b c d = false) : calcVal gd a b c d = none := by
  cases a <;> cases b <;> cases c <;> cases d <;>
    simp_all [argsValid, calcVal, geodesic] <;> split_ifs <;> simp_all

/-! ## value_counts lemmas -/

lemma mem_insertByCount (p q : String × ℕ) (l : List (String × ℕ)) :
    p ∈ insertByCount q l ↔ p = q ∨ p ∈ l := by
  induction l with
  | nil => simp [insertByCount]
  | cons a t ih =>
    by_cases h : q.2 ≤ a.2 <;> simp [insertByCount, h, ih]
    tauto

lemma mem_sortByCountDesc (p : String × ℕ) (l : List (String × ℕ)) :
    p ∈ sortByCountDesc l ↔ p ∈ l := by
  induction l with
  | nil => simp [sortByCountDesc]
  | cons a t ih =>
    show p ∈ insertByCount a (sortByCountDesc t) ↔ _
    rw [mem_insertByCount, ih]
    simp

lemma pairwise_insertByCount (q : String × ℕ) (l : List (String × ℕ))
    (h : l.Pairwise fun p p' => p'.2 ≤ p.2) :
    (insertByCount q l).Pairwise fun p p' => p'.2 ≤ p.2 := by
  induction l with
  | nil => simp [insertByCount]
  | cons a t ih =>
    rcases List.pairwise_cons.mp h with ⟨ha, ht⟩
    by_cases hle : q.2 ≤ a.2
    · rw [insertByCount, if_pos hle]
      refine List.pairwise_cons.mpr ⟨?_, ih ht⟩
      intro b hb
      rcases (mem_insertByCount b q t).mp hb with rfl | hbt
      · exact hle
      · exact ha b hbt
    · rw [insertByCount, if_neg hle]
      refine List.pairwise_cons.mpr ⟨?_, h⟩
      intro b hb
      rcases List.mem_cons.mp hb with rfl | hbt
      · exact le_of_lt (not_le.mp hle)
      · exact le_trans (ha b hbt) (le_of_lt (not_le.mp hle))

lemma pairwise_sortByCountDesc (l : List (String × ℕ)) :
    (sortByCountDesc l).Pairwise fun p p' => p'.2 ≤ p.2 := by
  induction l with
  | nil => simp [sortByCountDesc]
  | cons a t ih => exact pairwise_insertByCount a _ ih

lemma mem_value_counts (xs : List String) (s : String) (k : ℕ) :
    (s, k) ∈ value_counts xs ↔ s ∈ xs ∧ k = xs.count s := by
  unfold value_counts
  rw [mem_sortByCountDesc]
  constructor
  · intro hm
    rcases List.mem_map.mp hm with ⟨a, ha, heq⟩
    rcases Prod.mk.injEq .. ▸ heq with ⟨rfl, rfl⟩
    exact ⟨List.mem_dedup.mp ha, rfl⟩
  · rintro ⟨hs, rfl⟩
    exact List.mem_map.mpr ⟨s, List.mem_dedup.mpr hs, rfl⟩

/-! ## Concrete inputs used by witnesses and counterexamples -/

/-- A concrete surface-distance formula used to instantiate `gd` in
witnesses: symmetric and zero on coincident points. -/
def gdZero : ℚ → ℚ → ℚ → ℚ → ℚ := fun _ _ _ _ => 0

def dfOne : Df :=
  ⟨[latColumn, lonColumn], [[(latColumn, .num 0), (lonColumn, .num 0)]]⟩

def dfMixed : Df :=
  ⟨[latColumn, lonColumn],
   [[(latColumn, .num 0), (lonColumn, .num 0)],
    [(latColumn, .num 95), (lonColumn, .num 0)]]⟩

def dfNA : Df :=
  ⟨[latColumn, lonColumn], [[(latColumn, .str "N/A"), (lonColumn, .num 77)]]⟩

def dfNoCoords : Df := ⟨["city name"], [[("city name", .str "Bangalore")]]⟩

/-! ## Claim C1: bucketizer boundaries -/

/-- C1: the bucketizer is a total, deterministic function of its input: an
absent distance maps to the dedicated unavailable category
("Invalid Coordinates"), and a numeric distance `d ≥ 0` maps to exactly
one of the six labels via left-inclusive/right-exclusive boundaries
(`0 ≤ d < 1`, ..., `4 ≤ d < 5`, and the open-ended `d ≥ 5`), with no
overlap and no gap: each label is taken exactly on its stated interval. -/
theorem C1_bucketizer_boundaries :
    categorize_distance .pnone = "Invalid Coordinates" ∧
    ∀ d : ℚ, 0 ≤ d →
      categorize_distance (.pnum d) ∈ distanceLabels ∧
      (categorize_distance (.pnum d) = "< 1 km" ↔ 0 ≤ d ∧ d < 1) ∧
      (categorize_distance (.pnum d) = "1 - 2 km" ↔ 1 ≤ d ∧ d < 2) ∧
      (categorize_distance (.pnum d) = "2 - 3 km" ↔ 2 ≤ d ∧ d < 3) ∧
      (categorize_distance (.pnum d) = "3 - 4 km" ↔ 3 ≤ d ∧ d < 4) ∧
      (categorize_distance (.pnum d) = "4 - 5 km" ↔ 4 ≤ d ∧ d < 5) ∧
      (categorize_distance (.pnum d) = ">= 5 km" ↔ 5 ≤ d) := by
  refine ⟨rfl, fun d hd => ?_⟩
  rcases lt_or_le d 1 with h1 | h1
  · have hc := cat_lt_one h1
    refine ⟨by rw [hc]; decide, ?_, ?_, ?_, ?_, ?_, ?_⟩ <;>
      rw [hc] <;> constructor <;> intro hx <;>
      first
        | rfl
        | exact absurd hx (by decide)
        | exact ⟨by linarith, by linarith⟩
        | linarith
        | exact absurd hx.1 (not_le.mpr (by linarith))
        | exact absurd hx.2 (not_lt.mpr (by linarith))
        | exact absurd hx (not_le.mpr (by linarith))
  · rcases lt_or_le d 2 with h2 | h2
    · have hc := cat_one_two h1 h2
      refine ⟨by rw [hc]; decide, ?_, ?_, ?_, ?_, ?_, ?_⟩ <;>
        rw [hc] <;> constructor <;> intro hx <;>
        first
          | rfl
          | exact absurd hx (by decide)
          | exact ⟨by linarith, by linarith⟩
          | linarith
          | exact absurd hx.1 (not_le.mpr (by linarith))
          | exact absurd hx.2 (not_lt.mpr (by linarith))
          | exact absurd hx (not_le.mpr (by linarith))
    · rcases lt_or_le d 3 with h3 | h3
      · have hc := cat_two_three h2 h3
        refine ⟨by rw [hc]; decide, ?_, ?_, ?_, ?_, ?_, ?_⟩ <;>
          rw [hc] <;> constructor <;> intro hx <;>
          first
            | rfl
            | exact absurd hx (by decide)
            | exact ⟨by linarith, by linarith⟩
            | linarith
            | exact absurd hx.1 (not_le.mpr (by linarith))
            | exact absurd hx.2 (not_lt.mpr (by linarith))
            | exact absurd hx (not_le.mpr (by linarith))
      · rcases lt_or_le d 4 with h4 | h4
        · have hc := cat_three_four h3 h4
          refine ⟨by rw [hc]; decide, ?_, ?_, ?_, ?_, ?_, ?_⟩ <;>
            rw [hc] <;> constructor <;> intro hx <;>
            first
              | rfl
              | exact absurd hx (by decide)
              | exact ⟨by linarith, by linarith⟩
              | linarith
              | exact absurd hx.1 (not_le.mpr (by linarith))
              | exact absurd hx.2 (not_lt.mpr (by linarith))
              | exact absurd hx (not_le.mpr (by linarith))
        · rcases lt_or_le d 5 with h5 | h5
          · have hc := cat_four_five h4 h5
            refine ⟨by rw [hc]; decide, ?_, ?_, ?_, ?_, ?_, ?_⟩ <;>
              rw [hc] <;> constructor <;> intro hx <;>
              first
                | rfl
                | exact absurd hx (by decide)
                | exact ⟨by linarith, by linarith⟩
                | linarith
                | exact absurd hx.1 (not_le.mpr (by linarith))
                | exact absurd hx.2 (not_lt.mpr (by linarith))
                | exact absurd hx (not_le.mpr (by linarith))
          · have hc := cat_ge_five h5
            refine ⟨by rw [hc]; decide, ?_, ?_, ?_, ?_, ?_, ?_⟩ <;>
              rw [hc] <;> constructor <;> intro hx <;>
              first
                | rfl
                | exact absurd hx (by decide)
                | exact ⟨by linarith, by linarith⟩
                | linarith
                | exact absurd hx.1 (not_le.mpr (by linarith))
                | exact absurd hx.2 (not_lt.mpr (by linarith))
                | exact absurd hx (not_le.mpr (by linarith))

/-- Witness for C1 at the concrete distance 3/2. -/
theorem C1_bucketizer_boundaries_witness :
    (0:ℚ) ≤ 3/2 ∧ categorize_distance (.pnum (3/2)) = "1 - 2 km" :=
  ⟨by norm_num,
   ((C1_bucketizer_boundaries.2 (3/2) (by norm_num)).2.2.1).mpr ⟨by norm_num, by norm_num⟩⟩

/-! ## Claim C7: missing columns give a reported schema error -/

/-- C7: when one or both required coordinate columns are entirely absent
from the schema, the function reports the schema error message (no
exception) and returns no result; the argument is not touched. -/
theorem C7_schema_error (gd : ℚ → ℚ → ℚ → ℚ → ℚ) (df : Df) (rla rlo : ℚ)
    (h : hasCol df latColumn = false ∨ hasCol df lonColumn = false) :
    process_drop_points gd df rla rlo = .ok ⟨[schemaErrorMsg], none, df⟩ := by
  unfold process_drop_points
  rcases h with h | h <;> rw [if_pos (by simp [h])]

/-- Witness for C7 on a table having only a "city name" column. -/
theorem C7_schema_error_witness :
    process_drop_points gdZero dfNoCoords 0 0 = .ok ⟨[schemaErrorMsg], none, dfNoCoords⟩ :=
  C7_schema_error gdZero dfNoCoords 0 0 (Or.inl (by decide))

/-! ## Claim C4: invalid coordinates yield the failure value, no escape -/

/-- C4: `calculate_distance` never lets an exception escape, and on any
input whose coordinates are not four in-range finite numbers (non-finite,
out of range, or not interpretable as a number) it returns the failure
value `None`. -/
theorem C4_invalid_coordinates_fail (gd : ℚ → ℚ → ℚ → ℚ → ℚ) (a b c d : PyNum) :
    (∀ e : PyError, calculate_distance gd a b c d ≠ .error e) ∧
    (argsValid a b c d = false → calculate_distance gd a b c d = .ok none) := by
  constructor
  · intro e
    rw [calculate_distance_ok]
    simp
  · intro h
    rw [calculate_distance_ok, calcVal_invalid gd a b c d h]

/-- Witness for C4: an out-of-range latitude, a `NaN` coordinate and a
non-numeric coordinate each produce the failure value. -/
theorem C4_invalid_coordinates_fail_witness :
    calculate_distance gdZero (.fin 95) (.fin 0) (.fin 0) (.fin 0) = .ok none ∧
    calculate_distance gdZero .nan (.fin 0) (.fin 0) (.fin 0) = .ok none ∧
    calculate_distance gdZero (.notNum "N/A") (.fin 0) (.fin 0) (.fin 0) = .ok none :=
  ⟨(C4_invalid_coordinates_fail gdZero (.fin 95) (.fin 0) (.fin 0) (.fin 0)).2 (by decide),
   (C4_invalid_coordinates_fail gdZero .nan (.fin 0) (.fin 0) (.fin 0)).2 (by decide),
   (C4_invalid_coordinates_fail gdZero (.notNum "N/A") (.fin 0) (.fin 0) (.fin 0)).2
     (by decide)⟩

/-! ## The summary actually displayed (lines 201 and 206) -/

/-- The summary shown when the run returned a table. -/
def summaryOf (gd : ℚ → ℚ → ℚ → ℚ → ℚ) (df : Df) (rla rlo : ℚ) :
    Option (List (String × ℕ)) :=
  match process_drop_points gd df rla rlo with
  | .ok st => st.result.map bucketSummary
  | .error _ => none

/-- Helper: a successful run's returned table. -/
lemma process_result_rows (gd : ℚ → ℚ → ℚ → ℚ → ℚ) (df : Df) (rla rlo : ℚ)
    (h1 : hasCol df latColumn = true) (h2 : hasCol df lonColumn = true) :
    (process_drop_points gd df rla rlo).map ProcState.result =
      .ok (some (outDf gd df rla rlo)) := by
  rw [process_spec gd df rla rlo h1 h2]
  rfl

/-! ## Claim C3: the summary lists only observed buckets -/

/-- C3 counterexample: on a one-row table whose single record falls in
"< 1 km", the displayed summary lists only that bucket, so it does not
list every one of the six distance buckets. -/
theorem C3_counterexample :
    summaryOf gdZero dfOne 0 0 = some [("< 1 km", 1)] ∧
    ¬ (∀ b ∈ distanceLabels, b ∈ ([("< 1 km", 1)] : List (String × ℕ)).map Prod.fst) := by
  constructor
  · decide
  · decide

/-- C3 amended: the summary (pandas `value_counts` of the bucket column)
lists exactly the observed bucket labels, each with its count of matching
records, ordered by descending count; buckets with zero matching records
are omitted, and the order depends on the data. -/
theorem C3_amended_observed_buckets (df : Df) :
    ((bucketSummary df).Pairwise fun p p' => p'.2 ≤ p.2) ∧
    ∀ s k, (s, k) ∈ bucketSummary df ↔
      s ∈ (df.rows.map fun r =>
            match getCell r bucketColumn with
            | .str s' => s'
            | _ => "") ∧
      k = (df.rows.map fun r =>
            match getCell r bucketColumn with
            | .str s' => s'
            | _ => "").count s := by
  unfold bucketSummary
  exact ⟨pairwise_sortByCountDesc _, fun s k => mem_value_counts _ s k⟩

/-! ## Claim C9: dropped rows produce no diagnostic -/

/-- C9 counterexample: the row with latitude "N/A" is dropped (the output
has zero rows for a one-row input), yet the run emits no diagnostic entry
at all. -/
theorem C9_counterexample :
    (process_drop_points gdZero dfNA 0 0).map ProcState.errors = .ok [] ∧
    (process_drop_points gdZero dfNA 0 0).map
      (fun st => st.result.map fun d => d.rows.length) = .ok (some 0) ∧
    dfNA.rows.length = 1 :=
  ⟨by decide, by decide, rfl⟩

/-- C9 amended: row drops are silent — whenever the required columns are
present, the run emits no diagnostic entries at all, no matter how many
rows fail coercion and are dropped. -/
theorem C9_amended_silent_drops (gd : ℚ → ℚ → ℚ → ℚ → ℚ) (df : Df) (rla rlo : ℚ)
    (h1 : hasCol df latColumn = true) (h2 : hasCol df lonColumn = true) :
    (process_drop_points gd df rla rlo).map ProcState.errors = .ok [] := by
  rw [process_spec gd df rla rlo h1 h2]
  rfl

/-- Witness for the amended C9 on the "N/A" table. -/
theorem C9_amended_silent_drops_witness :
    (process_drop_points gdZero dfNA 0 0).map ProcState.errors = .ok [] :=
  C9_amended_silent_drops gdZero dfNA 0 0 (by decide) (by decide)

/-! ## Claim C6: failure marking in a mixed batch (code bug) -/

/-- C6 at the failing input: a two-row batch where the first row is valid
and the second has latitude 95 (distance computation fails).  Processing
continues through both rows, but pandas upcasts the failing record's
`None` distance to `NaN`, and `NaN` falls through every comparison of
`categorize_distance` into ">= 5 km" — not the dedicated unavailable
category "Invalid Coordinates", contradicting the claim (and the code's
own `None`-handling branch, which is unreachable in a mixed batch). -/
theorem C6_mixed_batch_nan_bucket :
    process_drop_points gdZero dfMixed 0 0 =
      .ok ⟨[], some ⟨[latColumn, lonColumn, distColumn, bucketColumn],
        [[(latColumn, .num 0), (lonColumn, .num 0), (distColumn, .num 0),
          (bucketColumn, .str "< 1 km")],
         [(latColumn, .num 95), (lonColumn, .num 0), (distColumn, .nan),
          (bucketColumn, .str ">= 5 km")]]⟩,
        dfMixed⟩ ∧
    ">= 5 km" ≠ "Invalid Coordinates" := by
  exact ⟨rfl, by decide⟩

/-! ## Claim C2: fixed-reference distances -/

/-- C2: in fixed-reference mode, for every point that survives validation,
the distance attached to that point's record is the geodesic distance
between that point and the explicitly supplied reference coordinates
(stated for in-range points and reference, where that distance exists;
`gd` is the underlying symmetric surface-distance formula). -/
theorem C2_fixed_reference_distance (gd : ℚ → ℚ → ℚ → ℚ → ℚ) (df : Df) (rla rlo : ℚ)
    (hsym : ∀ a b c d, gd a b c d = gd c d a b)
    (h1 : hasCol df latColumn = true) (h2 : hasCol df lonColumn = true)
    (hrla : validLat rla) (hrlo : validLon rlo) :
    ∃ df', (process_drop_points gd df rla rlo).map ProcState.result = .ok (some df') ∧
      List.Forall₂ (fun r' r => ∀ la lo,
          toNumeric (getCell r latColumn) = some la →
          toNumeric (getCell r lonColumn) = some lo →
          validLat la → validLon lo →
          getCell r' distColumn = .num (gd la lo rla rlo))
        df'.rows (df.rows.filter bothCoerceB) := by
  refine ⟨outDf gd df rla rlo, process_result_rows gd df rla rlo h1 h2, ?_⟩
  have hrows : (outDf gd df rla rlo).rows =
      (df.rows.filter bothCoerceB).map (processedRow gd rla rlo (mixedFlag gd df rla rlo)) := rfl
  rw [hrows, List.forall₂_map_left_iff, List.forall₂_same]
  intro r _ la lo hla hlo hvla hvlo
  rw [getCell_processedRow_dist, distOf_coerced gd rla rlo r la lo hla hlo,
    if_pos ⟨hrla, hrlo, hvla, hvlo⟩]
  simp only [pyValOf, distCell]
  rw [hsym rla rlo la lo]

/-- Witness for C2 on a concrete one-point table at the reference. -/
theorem C2_fixed_reference_distance_witness :
    ∃ df', (process_drop_points gdZero dfOne 0 0).map ProcState.result = .ok (some df') ∧
      List.Forall₂ (fun r' r => ∀ la lo,
          toNumeric (getCell r latColumn) = some la →
          toNumeric (getCell r lonColumn) = some lo →
          validLat la → validLon lo →
          getCell r' distColumn = .num (gdZero la lo 0 0))
        df'.rows (dfOne.rows.filter bothCoerceB) :=
  C2_fixed_reference_distance gdZero dfOne 0 0 (fun _ _ _ _ => rfl)
    (by decide) (by decide) (by decide) (by decide)

/-! ## Claim C5: invalid values never reach a distance -/

/-- C5: coordinate values outside the valid range, non-numeric or missing,
are treated as invalid and excluded from distance computation: rows that
fail coercion are dropped; a surviving row with an out-of-range coordinate
gets a missing (NA) distance; and whenever a numeric distance is attached
it was computed from the row's own in-range coordinate values — never from
values coerced to 0 or clamped into range. -/
theorem C5_invalid_never_used (gd : ℚ → ℚ → ℚ → ℚ → ℚ) (df : Df) (rla rlo : ℚ)
    (h1 : hasCol df latColumn = true) (h2 : hasCol df lonColumn = true) :
    ∃ df', (process_drop_points gd df rla rlo).map ProcState.result = .ok (some df') ∧
      df'.rows.length = (df.rows.filter bothCoerceB).length ∧
      List.Forall₂ (fun r' r =>
          (∀ q, getCell r' distColumn = .num q →
            ∃ la lo, toNumeric (getCell r latColumn) = some la ∧
              toNumeric (getCell r lonColumn) = some lo ∧
              validLat la ∧ validLon lo ∧ q = gd rla rlo la lo) ∧
          (∀ la lo, toNumeric (getCell r latColumn) = some la →
            toNumeric (getCell r lonColumn) = some lo →
            ¬ (validLat la ∧ validLon lo) →
            isNA (getCell r' distColumn) = true))
        df'.rows (df.rows.filter bothCoerceB) := by
  refine ⟨outDf gd df rla rlo, process_result_rows gd df rla rlo h1 h2, ?_, ?_⟩
  · exact List.length_map _ _
  have hrows : (outDf gd df rla rlo).rows =
      (df.rows.filter bothCoerceB).map (processedRow gd rla rlo (mixedFlag gd df rla rlo)) := rfl
  rw [hrows, List.forall₂_map_left_iff, List.forall₂_same]
  intro r hr
  have hbc := (List.mem_filter.mp hr).2
  rcases (bothCoerceB_iff r).mp hbc with ⟨⟨la, hla⟩, ⟨lo, hlo⟩⟩
  constructor
  · intro q hq
    rw [getCell_processedRow_dist, distOf_coerced gd rla rlo r la lo hla hlo] at hq
    by_cases hv : validLat rla ∧ validLon rlo ∧ validLat la ∧ validLon lo
    · rw [if_pos hv] at hq
      simp only [pyValOf, distCell] at hq
      exact ⟨la, lo, hla, hlo, hv.2.2.1, hv.2.2.2, (Cell.num.inj hq).symm⟩
    · rw [if_neg hv] at hq
      cases hm : mixedFlag gd df rla rlo <;> rw [hm] at hq <;>
        simp [pyValOf, distCell] at hq
  · intro la' lo' hla' hlo' hninv
    rw [getCell_processedRow_dist, distOf_coerced gd rla rlo r la' lo' hla' hlo',
      if_neg (by tauto)]
    cases hm : mixedFlag gd df rla rlo <;> simp [pyValOf, distCell, isNA]

/-- Witness for C5 on the mixed batch (one in-range, one out-of-range row). -/
theorem C5_invalid_never_used_witness :
    ∃ df', (process_drop_points gdZero dfMixed 0 0).map ProcState.result = .ok (some df') ∧
      df'.rows.length = (dfMixed.rows.filter bothCoerceB).length ∧
      List.Forall₂ (fun r' r =>
          (∀ q, getCell r' distColumn = .num q →
            ∃ la lo, toNumeric (getCell r latColumn) = some la ∧
              toNumeric (getCell r lonColumn) = some lo ∧
              validLat la ∧ validLon lo ∧ q = gdZero 0 0 la lo) ∧
          (∀ la lo, toNumeric (getCell r latColumn) = some la →
            toNumeric (getCell r lonColumn) = some lo →
            ¬ (validLat la ∧ validLon lo) →
            isNA (getCell r' distColumn) = true))
        df'.rows (dfMixed.rows.filter bothCoerceB) :=
  C5_invalid_never_used gdZero dfMixed 0 0 (by decide) (by decide)

/-! ## Claim C8: surviving rows are exactly the coercible ones, in order -/

/-- C8: the rows surviving normalization are exactly those whose latitude
and longitude both coerce to numeric values, in their original row order;
a surviving output row carries the coerced numeric coordinates and leaves
every other original column unchanged. -/
theorem C8_surviving_rows (gd : ℚ → ℚ → ℚ → ℚ → ℚ) (df : Df) (rla rlo : ℚ)
    (h1 : hasCol df latColumn = true) (h2 : hasCol df lonColumn = true) :
    ∃ df', (process_drop_points gd df rla rlo).map ProcState.result = .ok (some df') ∧
      df'.rows.length = (df.rows.filter bothCoerceB).length ∧
      List.Forall₂ (fun r' r =>
          (∀ la, toNumeric (getCell r latColumn) = some la →
            getCell r' latColumn = .num la) ∧
          (∀ lo, toNumeric (getCell r lonColumn) = some lo →
            getCell r' lonColumn = .num lo) ∧
          ∀ c, c ≠ latColumn → c ≠ lonColumn → c ≠ distColumn → c ≠ bucketColumn →
            getCell r' c = getCell r c)
        df'.rows (df.rows.filter bothCoerceB) := by
  refine ⟨outDf gd df rla rlo, process_result_rows gd df rla rlo h1 h2, ?_, ?_⟩
  · exact List.length_map _ _
  have hrows : (outDf gd df rla rlo).rows =
      (df.rows.filter bothCoerceB).map (processedRow gd rla rlo (mixedFlag gd df rla rlo)) := rfl
  rw [hrows, List.forall₂_map_left_iff, List.forall₂_same]
  intro r _
  refine ⟨?_, ?_, ?_⟩
  · intro la hla
    rw [getCell_processedRow_lat]
    simp [coerceCell, hla]
  · intro lo hlo
    rw [getCell_processedRow_lon]
    simp [coerceCell, hlo]
  · intro c hc1 hc2 hc3 hc4
    exact getCell_processedRow_other gd rla rlo _ r c hc1 hc2 hc3 hc4

/-- Witness for C8 on a table with one coercible and one non-numeric row. -/
theorem C8_surviving_rows_witness :
    ∃ df', (process_drop_points gdZero dfNA 0 0).map ProcState.result = .ok (some df') ∧
      df'.rows.length = (dfNA.rows.filter bothCoerceB).length ∧
      List.Forall₂ (fun r' r =>
          (∀ la, toNumeric (getCell r latColumn) = some la →
            getCell r' latColumn = .num la) ∧
          (∀ lo, toNumeric (getCell r lonColumn) = some lo →
            getCell r' lonColumn = .num lo) ∧
          ∀ c, c ≠ latColumn → c ≠ lonColumn → c ≠ distColumn → c ≠ bucketColumn →
            getCell r' c = getCell r c)
        df'.rows (dfNA.rows.filter bothCoerceB) :=
  C8_surviving_rows gdZero dfNA 0 0 (by decide) (by decide)

/-! ## Claim C10: in-place mutation of the argument, fresh output columns -/

/-- C10: `process_drop_points` mutates the data-frame object passed to it:
the numeric coercion is written back into the argument's two coordinate
columns in place (rows are neither dropped from nor added to the
argument), every other column of the argument is left unchanged, and the
returned table carries exactly the two new columns "Distance (km)" and
"Distance Bucket" appended to the original schema. -/
theorem C10_argument_mutation (gd : ℚ → ℚ → ℚ → ℚ → ℚ) (df : Df) (rla rlo : ℚ)
    (h1 : hasCol df latColumn = true) (h2 : hasCol df lonColumn = true)
    (hd : distColumn ∉ df.cols) (hb : bucketColumn ∉ df.cols) :
    ∃ st, process_drop_points gd df rla rlo = .ok st ∧
      st.errors = [] ∧
      st.arg.cols = df.cols ∧
      st.arg.rows.length = df.rows.length ∧
      List.Forall₂ (fun r' r =>
          getCell r' latColumn = coerceCell (getCell r latColumn) ∧
          getCell r' lonColumn = coerceCell (getCell r lonColumn) ∧
          ∀ c, c ≠ latColumn → c ≠ lonColumn → getCell r' c = getCell r c)
        st.arg.rows df.rows ∧
      ∃ df', st.result = some df' ∧
        df'.cols = df.cols ++ [distColumn, bucketColumn] := by
  refine ⟨_, process_spec gd df rla rlo h1 h2, rfl, ?_, ?_, ?_, outDf gd df rla rlo,
    rfl, ?_⟩
  · show addCol (addCol df.cols latColumn) lonColumn = df.cols
    rw [addCol_of_mem ((hasCol_iff df latColumn).mp h1),
      addCol_of_mem ((hasCol_iff df lonColumn).mp h2)]
  · show ((coercedDf df).rows).length = df.rows.length
    rw [coercedDf_rows]
    exact List.length_map _ _
  · show List.Forall₂ _ (coercedDf df).rows df.rows
    rw [coercedDf_rows, List.forall₂_map_left_iff, List.forall₂_same]
    intro r _
    exact ⟨getCell_coerceRowFn_lat r, getCell_coerceRowFn_lon r,
      fun c hc1 hc2 => getCell_coerceRowFn_ne r c hc1 hc2⟩
  · show addCol (addCol (addCol (addCol df.cols latColumn) lonColumn) distColumn)
      bucketColumn = df.cols ++ [distColumn, bucketColumn]
    rw [addCol_of_mem ((hasCol_iff df latColumn).mp h1),
      addCol_of_mem ((hasCol_iff df lonColumn).mp h2),
      addCol_of_not_mem hd,
      addCol_of_not_mem (by simp [hb]; decide),
      List.append_assoc]
    rfl

/-- Witness for C10 on the one-row table. -/
theorem C10_argument_mutation_witness :
    ∃ st, process_drop_points gdZero dfOne 0 0 = .ok st ∧
      st.errors = [] ∧
      st.arg.cols = dfOne.cols ∧
      st.arg.rows.length = dfOne.rows.length ∧
      List.Forall₂ (fun r' r =>
          getCell r' latColumn = coerceCell (getCell r latColumn) ∧
          getCell r' lonColumn = coerceCell (getCell r lonColumn) ∧
          ∀ c, c ≠ latColumn → c ≠ lonColumn → getCell r' c = getCell r c)
        st.arg.rows dfOne.rows ∧
      ∃ df', st.result = some df' ∧
        df'.cols = dfOne.cols ++ [distColumn, bucketColumn] :=
  C10_argument_mutation gdZero dfOne 0 0 (by decide) (by decide) (by decide) (by decide)

end DistanceBucket
